import Mathlib

/-!
# DkpClientDevice (tools/dkp-client-device.c)

A shallow embedding of the DeviceKit-power client device object: its private
data, the binding operation, the property refresh pipeline, the handler of the
remote Changed signal, the Refresh action and the GetStatistics decode loop.

The D-Bus library (dbus-glib) and the collaborators that live in other files
(dkp-object.c, dkp-enum.c) are not part of the file embedded here. The
library is an explicit environment `Env`: every answer the bus, the proxies
and the remote service can give is a field of it, and every theorem
quantifies over it. Diagnostics (dkp_debug, dkp_warning) write to a log sink
only and are left out.
-/

namespace DkpClient

/-! ## Values crossing the bus -/

/-- A gdouble, carried as its 64-bit pattern: the code only copies it. -/
structure GDouble where
  bits : Nat
  deriving DecidableEq, Repr

/-- A dynamically typed GValue as it occurs in a property bag. -/
inductive GValue where
  | boolean (b : Bool)
  | uint (n : Nat)
  | double (d : GDouble)
  | string (s : String)
  deriving DecidableEq, Repr

/-- The GHashTable (string to GValue) returned by GetAll. -/
abbrev GHashTable := List (String × GValue)

/-- An in-argument of dbus_g_proxy_call (G_TYPE_STRING or G_TYPE_UINT). -/
inductive GArg where
  | string (s : String)
  | uint (n : Nat)
  deriving DecidableEq, Repr

/-- One element of the GetStatistics reply: a GValueArray demarshalled as the
struct (G_TYPE_UINT, G_TYPE_DOUBLE, G_TYPE_STRING); nth0, nth1, nth2 are what
g_value_array_get_nth gives at 0, 1 and 2. -/
structure GValueArray where
  nth0 : Nat
  nth1 : GDouble
  nth2 : String
  deriving DecidableEq, Repr

/-- A DBusGConnection handle. -/
structure DBusGConnection where
  id : Nat
  deriving DecidableEq, Repr

/-- A DBusGProxy handle. -/
structure DBusGProxy where
  id : Nat
  deriving DecidableEq, Repr

/-- What a dbus_g_proxy_call on a valid proxy gives: TRUE with the
out-argument filled in, or FALSE with a GError carrying a message. -/
inductive CallReply (α : Type) where
  | ok (out : α)
  | error (message : String)
  deriving DecidableEq, Repr

/-! ## Collaborators declared in other files -/

/-- Modelled from the spec: the typed device snapshot DkpObject (dkp-object.h
is not among the sources). The spec keeps it opaque to the client ("exists and
is mutable in place"); it is carried here as an opaque bag of fields. -/
structure DkpObject where
  fields : List (String × GValue)
  deriving DecidableEq, Repr

/-- Modelled from the spec: the DkpSourceState enumeration (dkp-enum.h is not
among the sources): charging / discharging / fully-charged / empty / unknown. -/
inductive DkpSourceState where
  | charging
  | discharging
  | fully_charged
  | empty
  | unknown
  deriving DecidableEq, Repr

/-- Modelled from the spec: dkp_source_state_from_text (dkp-enum.c is not among
the sources), the state-name-to-enum mapping: a total function in which every
unrecognised string maps to the "unknown" sentinel. -/
def dkp_source_state_from_text (state : String) : DkpSourceState :=
  if state = "charging" then DkpSourceState.charging
  else if state = "discharging" then DkpSourceState.discharging
  else if state = "fully-charged" then DkpSourceState.fully_charged
  else if state = "empty" then DkpSourceState.empty
  else DkpSourceState.unknown

/-- Modelled from the spec: the recognised state names, those of the members of
the enumeration other than the sentinel. -/
def recognised_state_names : List String :=
  ["charging", "discharging", "fully-charged", "empty"]

/-- A DkpHistoryObj with the three fields the decode loop assigns. -/
structure DkpHistoryObj where
  time : Nat
  value : GDouble
  state : DkpSourceState
  deriving DecidableEq, Repr

/-- Everything outside the file: the answers of the bus library and of the
remote service during one operation, and the snapshot decoder.
dbus_g_proxy_call is split by the out-type the caller asks for (a map, nothing,
a collection of structs); each takes the proxy, the method name and the
in-arguments. -/
structure Env where
  dbus_g_bus_get : Option DBusGConnection
  dbus_g_proxy_new_for_name : DBusGConnection → String → String → String → Option DBusGProxy
  call_map : DBusGProxy → String → List GArg → CallReply GHashTable
  call_void : DBusGProxy → String → List GArg → CallReply Unit
  call_collection : DBusGProxy → String → List GArg → CallReply (List GValueArray)
  dkp_object_set_from_map : DkpObject → GHashTable → DkpObject

/-! ## The client device -/

/-- The struct DkpClientDevicePrivate; NULL is none. -/
structure DkpClientDevicePrivate where
  object_path : Option String
  obj : DkpObject
  bus : Option DBusGConnection
  proxy_source : Option DBusGProxy
  proxy_props : Option DBusGProxy
  deriving DecidableEq, Repr

/-- What an operation does to the outside, in order. -/
inductive Effect where
  | proxy_call (proxy : DBusGProxy) (method : String) (args : List GArg)
  | connect_signal (proxy : DBusGProxy) (signal : String)
  | emit_changed (obj : DkpObject)
  | object_print (obj : DkpObject)
  deriving DecidableEq, Repr

/-- How an operation ends: it returns a value, or it hands a NULL proxy to
dbus_g_proxy_call, which is outside the library's contract (no GError is set,
and the code reads error->message next). -/
inductive Outcome (α : Type) where
  | returned (v : α)
  | null_proxy_call (method : String)
  deriving DecidableEq, Repr

/-- One execution of an operation: how it ended, the private data it leaves
and the effects it performed. -/
structure Run (α : Type) where
  outcome : Outcome α
  priv : DkpClientDevicePrivate
  log : List Effect

/-- The instance after dkp_client_device_init: object_path, proxy_source and
proxy_props are assigned NULL, obj is the result of dkp_object_new (the
argument); bus is left as the zero-filled instance memory has it. -/
def dkp_client_device_init (obj : DkpObject) : DkpClientDevicePrivate :=
  { object_path := none, obj := obj, bus := none, proxy_source := none, proxy_props := none }

/-- The call of GetAll on proxy_props; NULL is returned when the call fails. -/
def dkp_client_device_get_device_properties (env : Env) (priv : DkpClientDevicePrivate) :
    Run (Option GHashTable) :=
  match priv.proxy_props with
  | none => { outcome := Outcome.null_proxy_call "GetAll", priv := priv, log := [] }
  | some proxy =>
    let args := [GArg.string "org.freedesktop.DeviceKit.Power.Device"]
    match env.call_map proxy "GetAll" args with
    | CallReply.error _ =>
      { outcome := Outcome.returned none, priv := priv,
        log := [Effect.proxy_call proxy "GetAll" args] }
    | CallReply.ok hash_table =>
      { outcome := Outcome.returned (some hash_table), priv := priv,
        log := [Effect.proxy_call proxy "GetAll" args] }

/-- Fetch all properties and decode them into the snapshot. -/
def dkp_client_device_refresh_internal (env : Env) (priv : DkpClientDevicePrivate) : Run Bool :=
  let r := dkp_client_device_get_device_properties env priv
  match r.outcome with
  | Outcome.null_proxy_call m => { outcome := Outcome.null_proxy_call m, priv := r.priv, log := r.log }
  | Outcome.returned none => { outcome := Outcome.returned false, priv := r.priv, log := r.log }
  | Outcome.returned (some hash) =>
    { outcome := Outcome.returned true,
      priv := { r.priv with obj := env.dkp_object_set_from_map r.priv.obj hash },
      log := r.log }

/-- The handler of the remote Changed signal: refresh, then emit the local
changed signal with priv->obj. -/
def dkp_client_device_changed_cb (env : Env) (priv : DkpClientDevicePrivate) : Run Unit :=
  let r := dkp_client_device_refresh_internal env priv
  match r.outcome with
  | Outcome.null_proxy_call m => { outcome := Outcome.null_proxy_call m, priv := r.priv, log := r.log }
  | Outcome.returned _ =>
    { outcome := Outcome.returned (), priv := r.priv,
      log := r.log ++ [Effect.emit_changed r.priv.obj] }

/-- The binding operation. -/
def dkp_client_device_set_object_path (env : Env) (priv : DkpClientDevicePrivate)
    (object_path : Option String) : Run Bool :=
  match priv.object_path with
  | some _ => { outcome := Outcome.returned false, priv := priv, log := [] }
  | none =>
    match object_path with
    | none => { outcome := Outcome.returned false, priv := priv, log := [] }
    | some path =>
      -- connect to the bus
      let priv1 := { priv with bus := env.dbus_g_bus_get }
      match env.dbus_g_bus_get with
      | none => { outcome := Outcome.returned false, priv := priv1, log := [] }
      | some bus =>
        -- connect to the correct path for properties
        match env.dbus_g_proxy_new_for_name bus "org.freedesktop.DeviceKit.Power" path
            "org.freedesktop.DBus.Properties" with
        | none => { outcome := Outcome.returned false, priv := priv1, log := [] }
        | some proxy_props =>
          -- connect to the correct path for all the other methods
          match env.dbus_g_proxy_new_for_name bus "org.freedesktop.DeviceKit.Power" path
              "org.freedesktop.DeviceKit.Power.Source" with
          | none => { outcome := Outcome.returned false, priv := priv1, log := [] }
          | some proxy_source =>
            -- listen to Changed (add_signal and connect_signal on proxy_source, logged as
            -- one connect_signal effect), then store the proxies and the path
            let priv2 := { priv1 with proxy_source := some proxy_source,
                                      proxy_props := some proxy_props,
                                      object_path := some path }
            -- coldplug
            let r := dkp_client_device_refresh_internal env priv2
            { outcome := r.outcome, priv := r.priv,
              log := Effect.connect_signal proxy_source "Changed" :: r.log }

/-- The accessor of the object path. -/
def dkp_client_device_get_object_path (priv : DkpClientDevicePrivate) : Option String :=
  priv.object_path

/-- The accessor of the snapshot. -/
def dkp_client_device_get_object (priv : DkpClientDevicePrivate) : DkpObject :=
  priv.obj

/-- The Refresh action, guarded by proxy_source != NULL. -/
def dkp_client_device_refresh (env : Env) (priv : DkpClientDevicePrivate) : Run Bool :=
  match priv.proxy_source with
  | none => { outcome := Outcome.returned false, priv := priv, log := [] }
  | some proxy =>
    match env.call_void proxy "Refresh" [] with
    | CallReply.error _ =>
      { outcome := Outcome.returned false, priv := priv,
        log := [Effect.proxy_call proxy "Refresh" []] }
    | CallReply.ok _ =>
      { outcome := Outcome.returned true, priv := priv,
        log := [Effect.proxy_call proxy "Refresh" []] }

/-- The body of the convert loop: one DkpHistoryObj per GValueArray. -/
def history_obj_of (gva : GValueArray) : DkpHistoryObj :=
  { time := gva.nth0, value := gva.nth1, state := dkp_source_state_from_text gva.nth2 }

/-- The convert loop of get_statistics: the elements of gvalue_ptr_array still
to visit, and the array built so far (g_ptr_array_add appends). -/
def convert_loop : List GValueArray → List DkpHistoryObj → List DkpHistoryObj
  | [], array => array
  | gva :: rest, array => convert_loop rest (array ++ [history_obj_of gva])

/-- The GetStatistics query; NULL (none) or the array of DkpHistoryObj. There
is no guard on proxy_source here. -/
def dkp_client_device_get_statistics (env : Env) (priv : DkpClientDevicePrivate)
    (type : String) (timespec : Nat) : Run (Option (List DkpHistoryObj)) :=
  match priv.proxy_source with
  | none => { outcome := Outcome.null_proxy_call "GetStatistics", priv := priv, log := [] }
  | some proxy =>
    let args := [GArg.string type, GArg.uint timespec]
    match env.call_collection proxy "GetStatistics" args with
    | CallReply.error _ =>
      { outcome := Outcome.returned none, priv := priv,
        log := [Effect.proxy_call proxy "GetStatistics" args] }
    | CallReply.ok gvalue_ptr_array =>
      -- no data
      if gvalue_ptr_array.length = 0 then
        { outcome := Outcome.returned none, priv := priv,
          log := [Effect.proxy_call proxy "GetStatistics" args] }
      else
        -- convert
        { outcome := Outcome.returned (some (convert_loop gvalue_ptr_array [])), priv := priv,
          log := [Effect.proxy_call proxy "GetStatistics" args] }

/-- Print the snapshot, then query the statistics for "charge" and "rate". -/
def dkp_client_device_print (env : Env) (priv : DkpClientDevicePrivate) : Run Bool :=
  let r1 := dkp_client_device_get_statistics env priv "charge" 120
  match r1.outcome with
  | Outcome.null_proxy_call m =>
    { outcome := Outcome.null_proxy_call m, priv := r1.priv,
      log := Effect.object_print priv.obj :: r1.log }
  | Outcome.returned _ =>
    let r2 := dkp_client_device_get_statistics env r1.priv "rate" 120
    match r2.outcome with
    | Outcome.null_proxy_call m =>
      { outcome := Outcome.null_proxy_call m, priv := r2.priv,
        log := Effect.object_print priv.obj :: (r1.log ++ r2.log) }
    | Outcome.returned _ =>
      { outcome := Outcome.returned true, priv := r2.priv,
        log := Effect.object_print priv.obj :: (r1.log ++ r2.log) }

/-! ## Sequences of operations -/

/-- The operations an owner or the bus can apply to an instance. -/
inductive Op where
  | set_object_path (object_path : Option String)
  | refresh
  | get_statistics (type : String) (timespec : Nat)
  | print
  | changed
  deriving DecidableEq, Repr

/-- The private data an operation leaves, under the given environment. -/
def step (env : Env) (op : Op) (priv : DkpClientDevicePrivate) : DkpClientDevicePrivate :=
  match op with
  | Op.set_object_path object_path => (dkp_client_device_set_object_path env priv object_path).priv
  | Op.refresh => (dkp_client_device_refresh env priv).priv
  | Op.get_statistics type timespec => (dkp_client_device_get_statistics env priv type timespec).priv
  | Op.print => (dkp_client_device_print env priv).priv
  | Op.changed => (dkp_client_device_changed_cb env priv).priv

/-- A sequence of operations, each under an environment of its own. -/
def run_ops : List (Env × Op) → DkpClientDevicePrivate → DkpClientDevicePrivate
  | [], priv => priv
  | (env, op) :: rest, priv => run_ops rest (step env op priv)

/-- The remote calls among the effects. -/
def remote_calls (log : List Effect) : List Effect :=
  log.filter (fun e => match e with
    | Effect.proxy_call _ _ _ => true
    | _ => false)

/-- The local changed events among the effects. -/
def changed_events (log : List Effect) : List Effect :=
  log.filter (fun e => match e with
    | Effect.emit_changed _ => true
    | _ => false)

/-! ## Concrete environments and instances used as examples -/

/-- The bit pattern of 50.0. -/
def d50 : GDouble := { bits := 0x4049000000000000 }

/-- The bit pattern of 45.0. -/
def d45 : GDouble := { bits := 0x4046800000000000 }

/-- The tuple sequence of the spec's example. -/
def example_tuples : List GValueArray :=
  [{ nth0 := 100, nth1 := d50, nth2 := "charging" },
   { nth0 := 200, nth1 := d45, nth2 := "discharging" }]

/-- An environment in which the bus opens, every proxy is constructed (handle 1
for the Properties interface, 2 otherwise), GetAll returns one property,
Refresh succeeds and GetStatistics returns the given tuples; the decoder
replaces the fields by the map. -/
def env_ok (tuples : List GValueArray) : Env :=
  { dbus_g_bus_get := some { id := 7 }
    dbus_g_proxy_new_for_name := fun _ _ _ iface =>
      if iface = "org.freedesktop.DBus.Properties" then some { id := 1 } else some { id := 2 }
    call_map := fun _ _ _ => CallReply.ok [("online", GValue.boolean true)]
    call_void := fun _ _ _ => CallReply.ok ()
    call_collection := fun _ _ _ => CallReply.ok tuples
    dkp_object_set_from_map := fun _ m => { fields := m } }

/-- As env_ok, but every remote call fails. -/
def env_call_error : Env :=
  { env_ok [] with
    call_map := fun _ _ _ => CallReply.error "no reply"
    call_void := fun _ _ _ => CallReply.error "no reply"
    call_collection := fun _ _ _ => CallReply.error "no reply" }

/-- As env_ok, but the bus cannot be opened. -/
def env_no_bus : Env :=
  { env_ok [] with dbus_g_bus_get := none }

/-- As env_ok, but no proxy can be constructed. -/
def env_no_proxy : Env :=
  { env_ok [] with dbus_g_proxy_new_for_name := fun _ _ _ _ => none }

/-- The empty snapshot of a fresh instance. -/
def obj0 : DkpObject := { fields := [] }

/-- A bound instance. -/
def priv_bound : DkpClientDevicePrivate :=
  { object_path := some "/org/freedesktop/DeviceKit/Power/devices/battery_BAT0"
    obj := obj0
    bus := some { id := 7 }
    proxy_source := some { id := 2 }
    proxy_props := some { id := 1 } }

/-! ## Predicates used in the statements -/

/-- The failure conditions of bind, in the order the spec lists them, with
"empty" read as absent (NULL): the object_path is absent, the instance already
has an object path, the bus connection cannot be opened, the property-query
endpoint or the action endpoint cannot be constructed, or the coldplug GetAll
on the property-query endpoint fails. -/
def bind_failure_condition (env : Env) (priv : DkpClientDevicePrivate)
    (object_path : Option String) : Prop :=
  object_path = none
  ∨ priv.object_path ≠ none
  ∨ env.dbus_g_bus_get = none
  ∨ ∃ path bus, object_path = some path ∧ env.dbus_g_bus_get = some bus ∧
      (env.dbus_g_proxy_new_for_name bus "org.freedesktop.DeviceKit.Power" path
          "org.freedesktop.DBus.Properties" = none
       ∨ env.dbus_g_proxy_new_for_name bus "org.freedesktop.DeviceKit.Power" path
          "org.freedesktop.DeviceKit.Power.Source" = none
       ∨ ∃ proxy_props message,
          env.dbus_g_proxy_new_for_name bus "org.freedesktop.DeviceKit.Power" path
            "org.freedesktop.DBus.Properties" = some proxy_props
          ∧ env.call_map proxy_props "GetAll"
              [GArg.string "org.freedesktop.DeviceKit.Power.Device"] = CallReply.error message)

/-- The three binding fields are all unset. -/
def binding_all_unset (priv : DkpClientDevicePrivate) : Prop :=
  priv.bus = none ∧ priv.proxy_props = none ∧ priv.proxy_source = none

/-- The three binding fields are all set. -/
def binding_all_set (priv : DkpClientDevicePrivate) : Prop :=
  priv.bus ≠ none ∧ priv.proxy_props ≠ none ∧ priv.proxy_source ≠ none

/-- What the code keeps of the binding fields: the two endpoints and the
object path are set together or unset together, and the bus handle is set
whenever they are. -/
def binding_invariant (priv : DkpClientDevicePrivate) : Prop :=
  (priv.proxy_source ≠ none ↔ priv.object_path ≠ none)
  ∧ (priv.proxy_props ≠ none ↔ priv.object_path ≠ none)
  ∧ (priv.object_path ≠ none → priv.bus ≠ none)

/-! ## Auxiliary facts -/

theorem convert_loop_eq (l : List GValueArray) (array : List DkpHistoryObj) :
    convert_loop l array = array ++ l.map history_obj_of := by
  induction l generalizing array with
  | nil => simp [convert_loop]
  | cons gva rest ih => simp [convert_loop, ih]

theorem get_statistics_ok (env : Env) (priv : DkpClientDevicePrivate) (proxy : DBusGProxy)
    (type : String) (timespec : Nat) (tuples : List GValueArray)
    (hbound : priv.proxy_source = some proxy)
    (hcall : env.call_collection proxy "GetStatistics" [GArg.string type, GArg.uint timespec]
      = CallReply.ok tuples) :
    (dkp_client_device_get_statistics env priv type timespec).outcome
      = Outcome.returned (if tuples.length = 0 then none else some (tuples.map history_obj_of)) := by
  unfold dkp_client_device_get_statistics
  simp only [hbound, hcall]
  split <;> simp [convert_loop_eq]

theorem get_statistics_error (env : Env) (priv : DkpClientDevicePrivate) (proxy : DBusGProxy)
    (type : String) (timespec : Nat) (message : String)
    (hbound : priv.proxy_source = some proxy)
    (hcall : env.call_collection proxy "GetStatistics" [GArg.string type, GArg.uint timespec]
      = CallReply.error message) :
    (dkp_client_device_get_statistics env priv type timespec).outcome = Outcome.returned none := by
  unfold dkp_client_device_get_statistics
  simp only [hbound, hcall]

theorem get_statistics_priv (env : Env) (priv : DkpClientDevicePrivate)
    (type : String) (timespec : Nat) :
    (dkp_client_device_get_statistics env priv type timespec).priv = priv := by
  unfold dkp_client_device_get_statistics
  cases priv.proxy_source with
  | none => rfl
  | some proxy =>
    simp only
    cases env.call_collection proxy "GetStatistics" [GArg.string type, GArg.uint timespec] with
    | error m => rfl
    | ok l => simp only; split <;> rfl

/-! ## Statistics decode -/

/-- C1: on a bound device, when the remote GetStatistics call succeeds with a
non-empty sequence of tuples, get_statistics returns an array of the same
length whose i-th sample has the i-th tuple's timestamp and value and the
state-name mapping of its state string; the spec's two-tuple example gives
charging then discharging. -/
theorem get_statistics_preserves_order (env : Env) (priv : DkpClientDevicePrivate)
    (proxy : DBusGProxy) (type : String) (timespec : Nat) (tuples : List GValueArray)
    (hbound : priv.proxy_source = some proxy)
    (hcall : env.call_collection proxy "GetStatistics" [GArg.string type, GArg.uint timespec]
      = CallReply.ok tuples)
    (hne : tuples ≠ []) :
    ∃ array : List DkpHistoryObj,
      (dkp_client_device_get_statistics env priv type timespec).outcome
        = Outcome.returned (some array)
      ∧ array.length = tuples.length
      ∧ (∀ i (h : i < tuples.length),
          array[i]? = some { time := tuples[i].nth0, value := tuples[i].nth1,
                             state := dkp_source_state_from_text tuples[i].nth2 })
      ∧ (dkp_client_device_get_statistics (env_ok example_tuples) priv_bound "charge" 120).outcome
        = Outcome.returned (some [{ time := 100, value := d50, state := DkpSourceState.charging },
                                  { time := 200, value := d45, state := DkpSourceState.discharging }]) := by
  refine ⟨tuples.map history_obj_of, ?_, by simp, ?_, ?_⟩
  · rw [get_statistics_ok env priv proxy type timespec tuples hbound hcall]
    have : tuples.length ≠ 0 := by
      intro h0
      exact hne (List.length_eq_zero.mp h0)
    simp [this]
  · intro i h
    simp [List.getElem?_map, List.getElem?_eq_getElem h, history_obj_of]
  · decide

theorem get_statistics_preserves_order_witness :
    ∃ array : List DkpHistoryObj,
      (dkp_client_device_get_statistics (env_ok example_tuples) priv_bound "rate" 120).outcome
        = Outcome.returned (some array)
      ∧ array.length = example_tuples.length
      ∧ (∀ i (h : i < example_tuples.length),
          array[i]? = some { time := example_tuples[i].nth0, value := example_tuples[i].nth1,
                             state := dkp_source_state_from_text example_tuples[i].nth2 })
      ∧ (dkp_client_device_get_statistics (env_ok example_tuples) priv_bound "charge" 120).outcome
        = Outcome.returned (some [{ time := 100, value := d50, state := DkpSourceState.charging },
                                  { time := 200, value := d45, state := DkpSourceState.discharging }]) :=
  get_statistics_preserves_order (env_ok example_tuples) priv_bound { id := 2 } "rate" 120
    example_tuples rfl rfl (by decide)

/-- C2 (as stated, refuted): on a bound device, a successful remote call with an
empty sequence and a failed remote call both make get_statistics return NULL:
the empty result is absent, and it is the same return value as the failure. -/
theorem get_statistics_empty_is_null_like_error :
    (dkp_client_device_get_statistics (env_ok []) priv_bound "charge" 120).outcome
      = Outcome.returned none
    ∧ (dkp_client_device_get_statistics env_call_error priv_bound "charge" 120).outcome
      = (dkp_client_device_get_statistics (env_ok []) priv_bound "charge" 120).outcome := by
  decide

/-- C2 (amended): on a bound device, get_statistics returns NULL both when the
remote call succeeds with an empty sequence and when it fails, so the two are
the same return value; it returns an array exactly when the call succeeds
with a non-empty sequence, and that array is the decoded sequence. -/
theorem get_statistics_null_iff (env : Env) (priv : DkpClientDevicePrivate)
    (proxy : DBusGProxy) (type : String) (timespec : Nat)
    (hbound : priv.proxy_source = some proxy) :
    (env.call_collection proxy "GetStatistics" [GArg.string type, GArg.uint timespec]
        = CallReply.ok [] →
      (dkp_client_device_get_statistics env priv type timespec).outcome = Outcome.returned none)
    ∧ (∀ message,
        env.call_collection proxy "GetStatistics" [GArg.string type, GArg.uint timespec]
          = CallReply.error message →
        (dkp_client_device_get_statistics env priv type timespec).outcome = Outcome.returned none)
    ∧ (∀ array,
        (dkp_client_device_get_statistics env priv type timespec).outcome
          = Outcome.returned (some array)
        ↔ ∃ tuples, tuples ≠ [] ∧ array = tuples.map history_obj_of ∧
            env.call_collection proxy "GetStatistics" [GArg.string type, GArg.uint timespec]
              = CallReply.ok tuples) := by
  refine ⟨?_, ?_, ?_⟩
  · intro hcall
    rw [get_statistics_ok env priv proxy type timespec [] hbound hcall]
    rfl
  · intro message hcall
    exact get_statistics_error env priv proxy type timespec message hbound hcall
  · intro array
    cases hcall : env.call_collection proxy "GetStatistics" [GArg.string type, GArg.uint timespec] with
    | error message =>
      rw [get_statistics_error env priv proxy type timespec message hbound hcall]
      simp
    | ok tuples =>
      rw [get_statistics_ok env priv proxy type timespec tuples hbound hcall]
      by_cases h0 : tuples.length = 0
      · have hnil : tuples = [] := List.length_eq_zero.mp h0
        subst hnil
        simp
      · have hne : tuples ≠ [] := fun h => h0 (by simp [h])
        simp only [h0, if_false, Outcome.returned.injEq, Option.some.injEq, CallReply.ok.injEq]
        constructor
        · intro h
          exact ⟨tuples, hne, h.symm, rfl⟩
        · rintro ⟨t, _, harr, ht⟩
          rw [harr, ht]

theorem get_statistics_null_iff_witness :
    (dkp_client_device_get_statistics (env_ok []) priv_bound "charge" 120).outcome
      = Outcome.returned none :=
  (get_statistics_null_iff (env_ok []) priv_bound { id := 2 } "charge" 120 rfl).1 rfl

/-! ## Refresh and the Changed notification -/

theorem refresh_internal_error (env : Env) (priv : DkpClientDevicePrivate) (proxy : DBusGProxy)
    (message : String) (hbound : priv.proxy_props = some proxy)
    (hcall : env.call_map proxy "GetAll" [GArg.string "org.freedesktop.DeviceKit.Power.Device"]
      = CallReply.error message) :
    dkp_client_device_refresh_internal env priv
      = { outcome := Outcome.returned false, priv := priv,
          log := [Effect.proxy_call proxy "GetAll"
                    [GArg.string "org.freedesktop.DeviceKit.Power.Device"]] } := by
  simp [dkp_client_device_refresh_internal, dkp_client_device_get_device_properties, hbound, hcall]

theorem refresh_internal_ok (env : Env) (priv : DkpClientDevicePrivate) (proxy : DBusGProxy)
    (hash : GHashTable) (hbound : priv.proxy_props = some proxy)
    (hcall : env.call_map proxy "GetAll" [GArg.string "org.freedesktop.DeviceKit.Power.Device"]
      = CallReply.ok hash) :
    dkp_client_device_refresh_internal env priv
      = { outcome := Outcome.returned true,
          priv := { priv with obj := env.dkp_object_set_from_map priv.obj hash },
          log := [Effect.proxy_call proxy "GetAll"
                    [GArg.string "org.freedesktop.DeviceKit.Power.Device"]] } := by
  simp [dkp_client_device_refresh_internal, dkp_client_device_get_device_properties, hbound, hcall]

theorem refresh_internal_unbound (env : Env) (priv : DkpClientDevicePrivate)
    (hunbound : priv.proxy_props = none) :
    dkp_client_device_refresh_internal env priv
      = { outcome := Outcome.null_proxy_call "GetAll", priv := priv, log := [] } := by
  simp [dkp_client_device_refresh_internal, dkp_client_device_get_device_properties, hunbound]

/-- C3: on a bound device, whatever the follow-up GetAll call answers, handling
one remote Changed notification returns and emits exactly one local changed
event, whose payload is the snapshot the device then holds; when GetAll fails
the private data, the snapshot included, is what it was before. -/
theorem changed_cb_emits_one_event (env : Env) (priv : DkpClientDevicePrivate)
    (proxy : DBusGProxy) (hbound : priv.proxy_props = some proxy) :
    (dkp_client_device_changed_cb env priv).outcome = Outcome.returned ()
    ∧ changed_events (dkp_client_device_changed_cb env priv).log
        = [Effect.emit_changed
            (dkp_client_device_get_object (dkp_client_device_changed_cb env priv).priv)]
    ∧ (∀ message,
        env.call_map proxy "GetAll" [GArg.string "org.freedesktop.DeviceKit.Power.Device"]
          = CallReply.error message →
        (dkp_client_device_changed_cb env priv).priv = priv
        ∧ dkp_client_device_get_object (dkp_client_device_changed_cb env priv).priv
            = dkp_client_device_get_object priv) := by
  cases hcall : env.call_map proxy "GetAll" [GArg.string "org.freedesktop.DeviceKit.Power.Device"] with
  | error message =>
    simp [dkp_client_device_changed_cb, refresh_internal_error env priv proxy message hbound hcall,
      changed_events, dkp_client_device_get_object]
  | ok hash =>
    simp [dkp_client_device_changed_cb, refresh_internal_ok env priv proxy hash hbound hcall,
      changed_events, dkp_client_device_get_object]

theorem changed_cb_emits_one_event_witness :
    (dkp_client_device_changed_cb env_call_error priv_bound).outcome = Outcome.returned ()
    ∧ changed_events (dkp_client_device_changed_cb env_call_error priv_bound).log
        = [Effect.emit_changed obj0]
    ∧ (dkp_client_device_changed_cb env_call_error priv_bound).priv = priv_bound := by
  have h := changed_cb_emits_one_event env_call_error priv_bound { id := 1 } rfl
  refine ⟨h.1, ?_, (h.2.2 "no reply" rfl).1⟩
  have h2 := h.2.1
  rw [(h.2.2 "no reply" rfl).2] at h2
  exact h2

/-! ## Operations on a never-bound instance -/

/-- C4 (the code at the failing input): on a freshly constructed instance
refresh returns FALSE without any effect, but get_statistics has no guard: it
does not return NULL, it reaches dbus_g_proxy_call for "GetStatistics" with
the NULL action endpoint. -/
theorem unbound_get_statistics_calls_null_proxy (env : Env) (obj : DkpObject)
    (type : String) (timespec : Nat) :
    (dkp_client_device_refresh env (dkp_client_device_init obj)).outcome = Outcome.returned false
    ∧ (dkp_client_device_refresh env (dkp_client_device_init obj)).log = []
    ∧ (dkp_client_device_get_statistics env (dkp_client_device_init obj) type timespec).outcome
        = Outcome.null_proxy_call "GetStatistics"
    ∧ (dkp_client_device_get_statistics env (dkp_client_device_init obj) type timespec).outcome
        ≠ Outcome.returned none := by
  simp [dkp_client_device_refresh, dkp_client_device_get_statistics, dkp_client_device_init]

/-! ## Binding -/

theorem set_object_path_already_bound (env : Env) (priv : DkpClientDevicePrivate)
    (object_path : Option String) (hset : priv.object_path ≠ none) :
    dkp_client_device_set_object_path env priv object_path
      = { outcome := Outcome.returned false, priv := priv, log := [] } := by
  unfold dkp_client_device_set_object_path
  cases hp : priv.object_path with
  | none => exact absurd hp hset
  | some p => rfl

theorem set_object_path_coldplug (env : Env) (priv : DkpClientDevicePrivate) (path : String)
    (bus : DBusGConnection) (proxy_props proxy_source : DBusGProxy)
    (hfresh : priv.object_path = none)
    (hbus : env.dbus_g_bus_get = some bus)
    (hprops : env.dbus_g_proxy_new_for_name bus "org.freedesktop.DeviceKit.Power" path
      "org.freedesktop.DBus.Properties" = some proxy_props)
    (hsource : env.dbus_g_proxy_new_for_name bus "org.freedesktop.DeviceKit.Power" path
      "org.freedesktop.DeviceKit.Power.Source" = some proxy_source) :
    dkp_client_device_set_object_path env priv (some path)
      = { outcome := (dkp_client_device_refresh_internal env
            { object_path := some path, obj := priv.obj, bus := some bus,
              proxy_source := some proxy_source, proxy_props := some proxy_props }).outcome,
          priv := (dkp_client_device_refresh_internal env
            { object_path := some path, obj := priv.obj, bus := some bus,
              proxy_source := some proxy_source, proxy_props := some proxy_props }).priv,
          log := Effect.connect_signal proxy_source "Changed" ::
            (dkp_client_device_refresh_internal env
              { object_path := some path, obj := priv.obj, bus := some bus,
                proxy_source := some proxy_source, proxy_props := some proxy_props }).log } := by
  unfold dkp_client_device_set_object_path
  simp only [hfresh, hbus, hprops, hsource]

/-- The three ways a bind call can leave the private data: untouched; only the
bus handle reassigned, with failure returned; or everything assigned. -/
theorem set_object_path_priv_cases (env : Env) (priv : DkpClientDevicePrivate)
    (object_path : Option String) :
    ((dkp_client_device_set_object_path env priv object_path).priv = priv
      ∧ (dkp_client_device_set_object_path env priv object_path).outcome = Outcome.returned false)
    ∨ (priv.object_path = none
        ∧ (dkp_client_device_set_object_path env priv object_path).priv
            = { priv with bus := env.dbus_g_bus_get }
        ∧ (dkp_client_device_set_object_path env priv object_path).outcome
            = Outcome.returned false)
    ∨ (∃ path bus proxy_props proxy_source obj,
        priv.object_path = none
        ∧ (dkp_client_device_set_object_path env priv object_path).priv
            = { object_path := some path, obj := obj, bus := some bus,
                proxy_source := some proxy_source, proxy_props := some proxy_props }) := by
  cases hp : priv.object_path with
  | some p =>
    left
    rw [set_object_path_already_bound env priv object_path (by simp [hp])]
    exact ⟨rfl, rfl⟩
  | none =>
    cases object_path with
    | none =>
      left
      simp [dkp_client_device_set_object_path, hp]
    | some path =>
      cases hbus : env.dbus_g_bus_get with
      | none =>
        right; left
        simp [dkp_client_device_set_object_path, hp, hbus]
      | some bus =>
        cases hprops : env.dbus_g_proxy_new_for_name bus "org.freedesktop.DeviceKit.Power" path
            "org.freedesktop.DBus.Properties" with
        | none =>
          right; left
          simp [dkp_client_device_set_object_path, hp, hbus, hprops]
        | some proxy_props =>
          cases hsource : env.dbus_g_proxy_new_for_name bus "org.freedesktop.DeviceKit.Power" path
              "org.freedesktop.DeviceKit.Power.Source" with
          | none =>
            right; left
            simp [dkp_client_device_set_object_path, hp, hbus, hprops, hsource]
          | some proxy_source =>
            right; right
            rw [set_object_path_coldplug env priv path bus proxy_props proxy_source hp hbus
              hprops hsource]
            cases hcall : env.call_map proxy_props "GetAll"
                [GArg.string "org.freedesktop.DeviceKit.Power.Device"] with
            | error message =>
              rw [refresh_internal_error env _ proxy_props message rfl hcall]
              exact ⟨path, bus, proxy_props, proxy_source, priv.obj, rfl, rfl⟩
            | ok hash =>
              rw [refresh_internal_ok env _ proxy_props hash rfl hcall]
              exact ⟨path, bus, proxy_props, proxy_source, _, rfl, rfl⟩

/-- C5 (as stated, refuted): a first bind that fails before the object path is
assigned (here the bus cannot be opened) leaves the path absent; a second bind
on the same instance then returns success and the reported object path changes
from absent to the second argument. -/
theorem second_bind_succeeds_after_failed_first :
    (dkp_client_device_set_object_path env_no_bus (dkp_client_device_init obj0)
        (some "/devices/a")).outcome = Outcome.returned false
    ∧ dkp_client_device_get_object_path
        (dkp_client_device_set_object_path env_no_bus (dkp_client_device_init obj0)
          (some "/devices/a")).priv = none
    ∧ (dkp_client_device_set_object_path (env_ok [])
        (dkp_client_device_set_object_path env_no_bus (dkp_client_device_init obj0)
          (some "/devices/a")).priv (some "/devices/b")).outcome = Outcome.returned true
    ∧ dkp_client_device_get_object_path
        (dkp_client_device_set_object_path (env_ok [])
          (dkp_client_device_set_object_path env_no_bus (dkp_client_device_init obj0)
            (some "/devices/a")).priv (some "/devices/b")).priv = some "/devices/b" := by
  decide

/-- C5 (amended): when the first bind returns success, or more generally leaves
the object path set, a second bind on the same instance returns failure
whatever its argument and whatever the bus answers, and the object path
reported after it is the one reported after the first call. -/
theorem second_bind_rejected (env1 env2 : Env) (priv : DkpClientDevicePrivate)
    (p1 p2 : Option String)
    (hfirst : (dkp_client_device_set_object_path env1 priv p1).outcome = Outcome.returned true
      ∨ dkp_client_device_get_object_path
          (dkp_client_device_set_object_path env1 priv p1).priv ≠ none) :
    (dkp_client_device_set_object_path env2
        (dkp_client_device_set_object_path env1 priv p1).priv p2).outcome = Outcome.returned false
    ∧ dkp_client_device_get_object_path
        (dkp_client_device_set_object_path env2
          (dkp_client_device_set_object_path env1 priv p1).priv p2).priv
      = dkp_client_device_get_object_path
          (dkp_client_device_set_object_path env1 priv p1).priv := by
  have hset : (dkp_client_device_set_object_path env1 priv p1).priv.object_path ≠ none := by
    rcases hfirst with hok | hpath
    · rcases set_object_path_priv_cases env1 priv p1 with h | h | h
      · rw [h.2] at hok
        simp at hok
      · rw [h.2.2] at hok
        simp at hok
      · obtain ⟨path, bus, pp, ps, obj, _, hpriv⟩ := h
        rw [hpriv]
        simp
    · exact hpath
  rw [set_object_path_already_bound env2 _ p2 hset]
  exact ⟨rfl, rfl⟩

theorem second_bind_rejected_witness :
    (dkp_client_device_set_object_path env_call_error
        (dkp_client_device_set_object_path (env_ok []) (dkp_client_device_init obj0)
          (some "/devices/a")).priv (some "/devices/b")).outcome = Outcome.returned false
    ∧ dkp_client_device_get_object_path
        (dkp_client_device_set_object_path env_call_error
          (dkp_client_device_set_object_path (env_ok []) (dkp_client_device_init obj0)
            (some "/devices/a")).priv (some "/devices/b")).priv
      = some "/devices/a" := by
  have h := second_bind_rejected (env_ok []) env_call_error (dkp_client_device_init obj0)
    (some "/devices/a") (some "/devices/b") (Or.inl (by decide))
  refine ⟨h.1, ?_⟩
  rw [h.2]
  decide

/-- C6 (as stated, refuted): bind with the empty string as object path is not
rejected by the code; when the bus opens, both endpoints are constructed and
GetAll succeeds, it returns success. -/
theorem bind_accepts_empty_string :
    (dkp_client_device_set_object_path (env_ok []) (dkp_client_device_init obj0)
        (some "")).outcome = Outcome.returned true
    ∧ dkp_client_device_get_object_path
        (dkp_client_device_set_object_path (env_ok []) (dkp_client_device_init obj0)
          (some "")).priv = some "" := by
  decide

/-- C6 (amended): for every instance state, argument and environment, bind
returns failure exactly when the object_path is absent (NULL), the instance
already has an object path, the bus connection cannot be opened, one of the
two endpoints cannot be constructed, or the coldplug GetAll fails; it returns
success exactly when none of these holds. -/
theorem bind_fails_iff (env : Env) (priv : DkpClientDevicePrivate)
    (object_path : Option String) :
    ((dkp_client_device_set_object_path env priv object_path).outcome = Outcome.returned false
      ↔ bind_failure_condition env priv object_path)
    ∧ ((dkp_client_device_set_object_path env priv object_path).outcome = Outcome.returned true
      ↔ ¬ bind_failure_condition env priv object_path) := by
  unfold bind_failure_condition
  cases hp : priv.object_path with
  | some p =>
    rw [set_object_path_already_bound env priv object_path (by simp [hp])]
    simp
  | none =>
    cases object_path with
    | none => simp [dkp_client_device_set_object_path, hp]
    | some path =>
      cases hbus : env.dbus_g_bus_get with
      | none => simp [dkp_client_device_set_object_path, hp, hbus]
      | some bus =>
        cases hprops : env.dbus_g_proxy_new_for_name bus "org.freedesktop.DeviceKit.Power" path
            "org.freedesktop.DBus.Properties" with
        | none => simp [dkp_client_device_set_object_path, hp, hbus, hprops]
        | some proxy_props =>
          cases hsource : env.dbus_g_proxy_new_for_name bus "org.freedesktop.DeviceKit.Power" path
              "org.freedesktop.DeviceKit.Power.Source" with
          | none => simp [dkp_client_device_set_object_path, hp, hbus, hprops, hsource]
          | some proxy_source =>
            rw [set_object_path_coldplug env priv path bus proxy_props proxy_source hp hbus
              hprops hsource]
            cases hcall : env.call_map proxy_props "GetAll"
                [GArg.string "org.freedesktop.DeviceKit.Power.Device"] with
            | error message =>
              rw [refresh_internal_error env _ proxy_props message rfl hcall]
              simp [hprops, hsource, hcall]
            | ok hash =>
              rw [refresh_internal_ok env _ proxy_props hash rfl hcall]
              simp [hprops, hsource, hcall]

/-- C7: when bind on a freshly constructed instance with snapshot s0 returns
success, the snapshot get_object gives afterwards is the decoder applied once
to s0 and the map returned by GetAll, and the only remote call of that bind
is that GetAll, made on the proxy constructed for the given path and the
Properties interface, with interface org.freedesktop.DeviceKit.Power.Device as
its argument. -/
theorem bind_coldplug_snapshot (env : Env) (s0 : DkpObject) (object_path : Option String)
    (hok : (dkp_client_device_set_object_path env (dkp_client_device_init s0)
      object_path).outcome = Outcome.returned true) :
    ∃ path bus proxy_props hash,
      object_path = some path
      ∧ env.dbus_g_bus_get = some bus
      ∧ env.dbus_g_proxy_new_for_name bus "org.freedesktop.DeviceKit.Power" path
          "org.freedesktop.DBus.Properties" = some proxy_props
      ∧ env.call_map proxy_props "GetAll" [GArg.string "org.freedesktop.DeviceKit.Power.Device"]
          = CallReply.ok hash
      ∧ dkp_client_device_get_object
          (dkp_client_device_set_object_path env (dkp_client_device_init s0) object_path).priv
        = env.dkp_object_set_from_map s0 hash
      ∧ remote_calls
          (dkp_client_device_set_object_path env (dkp_client_device_init s0) object_path).log
        = [Effect.proxy_call proxy_props "GetAll"
            [GArg.string "org.freedesktop.DeviceKit.Power.Device"]]
      ∧ dkp_client_device_get_object_path
          (dkp_client_device_set_object_path env (dkp_client_device_init s0) object_path).priv
        = some path := by
  have hp : (dkp_client_device_init s0).object_path = none := rfl
  cases object_path with
  | none => simp [dkp_client_device_set_object_path, hp] at hok
  | some path =>
    cases hbus : env.dbus_g_bus_get with
    | none => simp [dkp_client_device_set_object_path, hp, hbus] at hok
    | some bus =>
      cases hprops : env.dbus_g_proxy_new_for_name bus "org.freedesktop.DeviceKit.Power" path
          "org.freedesktop.DBus.Properties" with
      | none => simp [dkp_client_device_set_object_path, hp, hbus, hprops] at hok
      | some proxy_props =>
        cases hsource : env.dbus_g_proxy_new_for_name bus "org.freedesktop.DeviceKit.Power" path
            "org.freedesktop.DeviceKit.Power.Source" with
        | none => simp [dkp_client_device_set_object_path, hp, hbus, hprops, hsource] at hok
        | some proxy_source =>
          rw [set_object_path_coldplug env _ path bus proxy_props proxy_source hp hbus
            hprops hsource] at hok ⊢
          cases hcall : env.call_map proxy_props "GetAll"
              [GArg.string "org.freedesktop.DeviceKit.Power.Device"] with
          | error message =>
            rw [refresh_internal_error env _ proxy_props message rfl hcall] at hok
            simp at hok
          | ok hash =>
            rw [refresh_internal_ok env _ proxy_props hash rfl hcall]
            exact ⟨path, bus, proxy_props, hash, rfl, rfl, hprops, hcall, rfl, rfl, rfl⟩

theorem bind_coldplug_snapshot_witness :
    ∃ path bus proxy_props hash,
      some "/devices/a" = some path
      ∧ (env_ok []).dbus_g_bus_get = some bus
      ∧ (env_ok []).dbus_g_proxy_new_for_name bus "org.freedesktop.DeviceKit.Power" path
          "org.freedesktop.DBus.Properties" = some proxy_props
      ∧ (env_ok []).call_map proxy_props "GetAll"
          [GArg.string "org.freedesktop.DeviceKit.Power.Device"] = CallReply.ok hash
      ∧ dkp_client_device_get_object
          (dkp_client_device_set_object_path (env_ok []) (dkp_client_device_init obj0)
            (some "/devices/a")).priv
        = (env_ok []).dkp_object_set_from_map obj0 hash
      ∧ remote_calls
          (dkp_client_device_set_object_path (env_ok []) (dkp_client_device_init obj0)
            (some "/devices/a")).log
        = [Effect.proxy_call proxy_props "GetAll"
            [GArg.string "org.freedesktop.DeviceKit.Power.Device"]]
      ∧ dkp_client_device_get_object_path
          (dkp_client_device_set_object_path (env_ok []) (dkp_client_device_init obj0)
            (some "/devices/a")).priv
        = some path :=
  bind_coldplug_snapshot (env_ok []) obj0 (some "/devices/a") (by decide)

/-! ## Invariants over sequences of operations -/

theorem refresh_priv (env : Env) (priv : DkpClientDevicePrivate) :
    (dkp_client_device_refresh env priv).priv = priv := by
  unfold dkp_client_device_refresh
  cases priv.proxy_source with
  | none => rfl
  | some proxy =>
    simp only
    cases env.call_void proxy "Refresh" [] with
    | error m => rfl
    | ok u => rfl

theorem print_priv (env : Env) (priv : DkpClientDevicePrivate) :
    (dkp_client_device_print env priv).priv = priv := by
  unfold dkp_client_device_print
  simp only [get_statistics_priv]
  cases (dkp_client_device_get_statistics env priv "charge" 120).outcome with
  | null_proxy_call m => rfl
  | returned v =>
    simp only
    cases (dkp_client_device_get_statistics env priv "rate" 120).outcome with
    | null_proxy_call m => rfl
    | returned w => rfl

theorem refresh_internal_priv (env : Env) (priv : DkpClientDevicePrivate) :
    ∃ obj, (dkp_client_device_refresh_internal env priv).priv = { priv with obj := obj } := by
  obtain ⟨path, o, bus, ps, pp⟩ := priv
  cases pp with
  | none =>
    rw [refresh_internal_unbound env _ rfl]
    exact ⟨o, rfl⟩
  | some proxy =>
    cases hcall : env.call_map proxy "GetAll"
        [GArg.string "org.freedesktop.DeviceKit.Power.Device"] with
    | error message =>
      rw [refresh_internal_error env _ proxy message rfl hcall]
      exact ⟨o, rfl⟩
    | ok hash =>
      rw [refresh_internal_ok env _ proxy hash rfl hcall]
      exact ⟨_, rfl⟩

theorem changed_cb_priv (env : Env) (priv : DkpClientDevicePrivate) :
    ∃ obj, (dkp_client_device_changed_cb env priv).priv = { priv with obj := obj } := by
  obtain ⟨obj, hobj⟩ := refresh_internal_priv env priv
  refine ⟨obj, ?_⟩
  unfold dkp_client_device_changed_cb
  simp only
  cases (dkp_client_device_refresh_internal env priv).outcome with
  | null_proxy_call m => exact hobj
  | returned v => exact hobj

/-- Every operation other than bind changes at most the snapshot. -/
theorem step_cases (env : Env) (op : Op) (priv : DkpClientDevicePrivate) :
    (∃ object_path, step env op priv = (dkp_client_device_set_object_path env priv object_path).priv)
    ∨ (∃ obj, step env op priv = { priv with obj := obj }) := by
  cases op with
  | set_object_path object_path => exact Or.inl ⟨object_path, rfl⟩
  | refresh => exact Or.inr ⟨priv.obj, by simp [step, refresh_priv]⟩
  | get_statistics type timespec => exact Or.inr ⟨priv.obj, by simp [step, get_statistics_priv]⟩
  | print => exact Or.inr ⟨priv.obj, by simp [step, print_priv]⟩
  | changed => exact Or.inr (changed_cb_priv env priv)

theorem step_preserves_object_path (env : Env) (op : Op) (priv : DkpClientDevicePrivate)
    (p : String) (hset : priv.object_path = some p) :
    (step env op priv).object_path = some p := by
  rcases step_cases env op priv with ⟨object_path, h⟩ | ⟨obj, h⟩
  · rw [h, set_object_path_already_bound env priv object_path (by simp [hset])]
    exact hset
  · rw [h]
    exact hset

theorem step_preserves_binding_invariant (env : Env) (op : Op) (priv : DkpClientDevicePrivate)
    (hinv : binding_invariant priv) : binding_invariant (step env op priv) := by
  rcases step_cases env op priv with ⟨object_path, h⟩ | ⟨obj, h⟩
  · rw [h]
    rcases set_object_path_priv_cases env priv object_path with hc | hc | hc
    · rw [hc.1]
      exact hinv
    · obtain ⟨hnone, hpriv, _⟩ := hc
      rw [hpriv]
      unfold binding_invariant at hinv ⊢
      simp only [hnone] at hinv ⊢
      simp only [ne_eq, not_true_eq_false, iff_false, not_not, false_implies, and_true] at hinv ⊢
      exact ⟨hinv.1, hinv.2⟩
    · obtain ⟨path, bus, pp, ps, obj, _, hpriv⟩ := hc
      rw [hpriv]
      simp [binding_invariant]
  · rw [h]
    exact hinv

theorem run_ops_preserves_binding_invariant (ops : List (Env × Op))
    (priv : DkpClientDevicePrivate) (hinv : binding_invariant priv) :
    binding_invariant (run_ops ops priv) := by
  induction ops generalizing priv with
  | nil => exact hinv
  | cons eo rest ih =>
    obtain ⟨env, op⟩ := eo
    exact ih _ (step_preserves_binding_invariant env op priv hinv)

/-- C8 (as stated, refuted): a bind that fails at endpoint construction returns
failure and leaves the bus handle set while both endpoints are unset, a state
neither all-unset nor all-set; a bind that fails at the coldplug refresh
returns failure with all three fields and the object path set. -/
theorem failed_bind_binding_fields :
    (dkp_client_device_set_object_path env_no_proxy (dkp_client_device_init obj0)
        (some "/devices/a")).outcome = Outcome.returned false
    ∧ ¬ binding_all_unset
        (run_ops [(env_no_proxy, Op.set_object_path (some "/devices/a"))]
          (dkp_client_device_init obj0))
    ∧ ¬ binding_all_set
        (run_ops [(env_no_proxy, Op.set_object_path (some "/devices/a"))]
          (dkp_client_device_init obj0))
    ∧ (dkp_client_device_set_object_path env_call_error (dkp_client_device_init obj0)
        (some "/devices/a")).outcome = Outcome.returned false
    ∧ ¬ binding_all_unset
        (dkp_client_device_set_object_path env_call_error (dkp_client_device_init obj0)
          (some "/devices/a")).priv
    ∧ dkp_client_device_get_object_path
        (dkp_client_device_set_object_path env_call_error (dkp_client_device_init obj0)
          (some "/devices/a")).priv = some "/devices/a" := by
  unfold binding_all_unset binding_all_set
  decide

/-- C8 (amended): in every state reached from a freshly constructed instance by
any sequence of operations, the two endpoints and the object path are set
together or unset together and the bus handle is set whenever they are, so
the three binding fields are all unset, all set, or only the bus handle is
set; after a bind call that returns failure, either both endpoints and the
object path are unset, or all three binding fields and the object path are
set. -/
theorem binding_fields_invariant (obj : DkpObject) (ops : List (Env × Op)) :
    binding_invariant (run_ops ops (dkp_client_device_init obj))
    ∧ (binding_all_unset (run_ops ops (dkp_client_device_init obj))
        ∨ binding_all_set (run_ops ops (dkp_client_device_init obj))
        ∨ ((run_ops ops (dkp_client_device_init obj)).bus ≠ none
            ∧ (run_ops ops (dkp_client_device_init obj)).proxy_props = none
            ∧ (run_ops ops (dkp_client_device_init obj)).proxy_source = none
            ∧ (run_ops ops (dkp_client_device_init obj)).object_path = none))
    ∧ (∀ env object_path,
        (dkp_client_device_set_object_path env (run_ops ops (dkp_client_device_init obj))
          object_path).outcome = Outcome.returned false →
        ((dkp_client_device_set_object_path env (run_ops ops (dkp_client_device_init obj))
            object_path).priv.proxy_props = none
          ∧ (dkp_client_device_set_object_path env (run_ops ops (dkp_client_device_init obj))
            object_path).priv.proxy_source = none
          ∧ (dkp_client_device_set_object_path env (run_ops ops (dkp_client_device_init obj))
            object_path).priv.object_path = none)
        ∨ (binding_all_set
            (dkp_client_device_set_object_path env (run_ops ops (dkp_client_device_init obj))
              object_path).priv
          ∧ (dkp_client_device_set_object_path env (run_ops ops (dkp_client_device_init obj))
            object_path).priv.object_path ≠ none)) := by
  have hinit : binding_invariant (dkp_client_device_init obj) := by
    simp [binding_invariant, dkp_client_device_init]
  have hinv := run_ops_preserves_binding_invariant ops _ hinit
  have key : ∀ s : DkpClientDevicePrivate, binding_invariant s →
      (s.proxy_props = none ∧ s.proxy_source = none ∧ s.object_path = none)
      ∨ (binding_all_set s ∧ s.object_path ≠ none) := by
    intro s hs
    obtain ⟨h1, h2, h3⟩ := hs
    by_cases hp : s.object_path = none
    · left
      refine ⟨?_, ?_, hp⟩
      · by_contra hc
        exact (h2.mp hc) hp
      · by_contra hc
        exact (h1.mp hc) hp
    · right
      exact ⟨⟨h3 hp, h2.mpr hp, h1.mpr hp⟩, hp⟩
  refine ⟨hinv, ?_, ?_⟩
  · rcases key _ hinv with ⟨hpp, hps, hpath⟩ | ⟨hall, _⟩
    · by_cases hb : (run_ops ops (dkp_client_device_init obj)).bus = none
      · exact Or.inl ⟨hb, hpp, hps⟩
      · exact Or.inr (Or.inr ⟨hb, hpp, hps, hpath⟩)
    · exact Or.inr (Or.inl hall)
  · intro env object_path _
    exact key _ (step_preserves_binding_invariant env (Op.set_object_path object_path) _ hinv)

theorem run_ops_preserves_object_path (ops : List (Env × Op)) (priv : DkpClientDevicePrivate)
    (p : String) (hset : priv.object_path = some p) :
    (run_ops ops priv).object_path = some p := by
  induction ops generalizing priv with
  | nil => exact hset
  | cons eo rest ih =>
    obtain ⟨env, op⟩ := eo
    exact ih _ (step_preserves_object_path env op priv p hset)

/-- C10: once get_object_path returns p on an instance, it returns p after any
further sequence of operations (bind with any argument, refresh,
get_statistics, print, a Changed notification), each under any behaviour of
the bus and the remote service: the object path is assigned at most once. -/
theorem object_path_immutable (priv : DkpClientDevicePrivate) (p : String)
    (ops : List (Env × Op)) (hset : dkp_client_device_get_object_path priv = some p) :
    dkp_client_device_get_object_path (run_ops ops priv) = some p :=
  run_ops_preserves_object_path ops priv p hset

theorem object_path_immutable_witness :
    dkp_client_device_get_object_path
      (run_ops [(env_ok [], Op.set_object_path (some "/devices/b")),
                (env_call_error, Op.changed),
                (env_ok example_tuples, Op.print),
                (env_no_bus, Op.set_object_path none),
                (env_ok [], Op.refresh),
                (env_ok [], Op.get_statistics "rate" 120)]
        (dkp_client_device_set_object_path (env_ok []) (dkp_client_device_init obj0)
          (some "/devices/a")).priv)
      = some "/devices/a" :=
  object_path_immutable _ "/devices/a" _ (by decide)

/-! ## Unknown state strings -/

theorem from_text_unrecognised (state : String) (h : state ∉ recognised_state_names) :
    dkp_source_state_from_text state = DkpSourceState.unknown := by
  simp only [recognised_state_names, List.mem_cons, List.mem_singleton, List.not_mem_nil,
    or_false, not_or] at h
  simp [dkp_source_state_from_text, h.1, h.2.1, h.2.2.1, h.2.2.2]

/-- C9: when the remote GetStatistics call succeeds and the tuple at index i
carries a state string that is not a recognised state name, get_statistics
does not fail: it returns one sample per tuple, sample j carrying tuple j's
timestamp and value, sample i carrying the unknown sentinel; and every sample
other than the i-th is the one produced for the same sequence with any other
state string (a recognised one included) in tuple i. -/
theorem get_statistics_tolerates_unknown_state (env env2 : Env)
    (priv : DkpClientDevicePrivate) (proxy : DBusGProxy) (type : String) (timespec : Nat)
    (tuples : List GValueArray) (i : Nat) (hi : i < tuples.length) (state2 : String)
    (hbound : priv.proxy_source = some proxy)
    (hcall : env.call_collection proxy "GetStatistics" [GArg.string type, GArg.uint timespec]
      = CallReply.ok tuples)
    (hbogus : tuples[i].nth2 ∉ recognised_state_names)
    (hcall2 : env2.call_collection proxy "GetStatistics" [GArg.string type, GArg.uint timespec]
      = CallReply.ok (tuples.set i { tuples[i] with nth2 := state2 })) :
    ∃ array array2 : List DkpHistoryObj,
      (dkp_client_device_get_statistics env priv type timespec).outcome
        = Outcome.returned (some array)
      ∧ (dkp_client_device_get_statistics env2 priv type timespec).outcome
        = Outcome.returned (some array2)
      ∧ array.length = tuples.length
      ∧ (∀ j (hj : j < tuples.length), ∃ state,
          array[j]? = some { time := tuples[j].nth0, value := tuples[j].nth1, state := state })
      ∧ array[i]? = some { time := tuples[i].nth0, value := tuples[i].nth1,
                           state := DkpSourceState.unknown }
      ∧ (∀ j, j ≠ i → array[j]? = array2[j]?) := by
  have hlen : tuples.length ≠ 0 := by omega
  have hlen2 : (tuples.set i { tuples[i] with nth2 := state2 }).length ≠ 0 := by
    rw [List.length_set]
    exact hlen
  refine ⟨tuples.map history_obj_of,
    (tuples.set i { tuples[i] with nth2 := state2 }).map history_obj_of, ?_, ?_, by simp, ?_, ?_, ?_⟩
  · rw [get_statistics_ok env priv proxy type timespec tuples hbound hcall]
    simp [hlen]
  · rw [get_statistics_ok env2 priv proxy type timespec _ hbound hcall2]
    simp only [hlen2, if_false]
  · intro j hj
    exact ⟨dkp_source_state_from_text tuples[j].nth2, by
      simp [List.getElem?_map, List.getElem?_eq_getElem hj, history_obj_of]⟩
  · simp [List.getElem?_map, List.getElem?_eq_getElem hi, history_obj_of,
      from_text_unrecognised _ hbogus]
  · intro j hji
    rw [List.getElem?_map, List.getElem?_map, List.getElem?_set_ne (Ne.symm hji)]

theorem get_statistics_tolerates_unknown_state_witness :
    ∃ array array2 : List DkpHistoryObj,
      (dkp_client_device_get_statistics
          (env_ok [{ nth0 := 100, nth1 := d50, nth2 := "charging" },
                   { nth0 := 200, nth1 := d45, nth2 := "bogus" }])
          priv_bound "charge" 120).outcome = Outcome.returned (some array)
      ∧ (dkp_client_device_get_statistics (env_ok example_tuples) priv_bound "charge" 120).outcome
        = Outcome.returned (some array2)
      ∧ array.length = 2
      ∧ array[1]? = some { time := 200, value := d45, state := DkpSourceState.unknown }
      ∧ array[0]? = array2[0]? := by
  obtain ⟨array, array2, h1, h2, h3, _, h5, h6⟩ :=
    get_statistics_tolerates_unknown_state
      (env_ok [{ nth0 := 100, nth1 := d50, nth2 := "charging" },
               { nth0 := 200, nth1 := d45, nth2 := "bogus" }])
      (env_ok example_tuples) priv_bound { id := 2 } "charge" 120
      [{ nth0 := 100, nth1 := d50, nth2 := "charging" },
       { nth0 := 200, nth1 := d45, nth2 := "bogus" }]
      1 (by decide) "discharging" rfl rfl (by decide) rfl
  exact ⟨array, array2, h1, h2, h3, h5, h6 0 (by decide)⟩

end DkpClient
